import Mathlib

/-!
Shallow embedding of the `elphadeal` command-line launcher (two observed
source variants: `src/elphadeal.js`, here `runT`, whose `create` accepts an
optional leading template-package argument; and `src/unnamed/part_000`,
here `runS`, whose `create` takes a single project name).

The launcher is modelled as a pure function from a `Host` record (the
facts the program reads from its environment: current directory, the
`fs.existsSync` oracle, whether the spawned `npm` subprocess succeeds,
...) and the argument tail `process.argv.slice(2)` to a trace of observable
effects plus an outcome.  Filesystem primitives (`mkdirSync`,
`writeFileSync`) are assumed reliable; the only modelled failure source is
the `npm` subprocess (`execSync`), matching the try/catch structure of the
source.  JSON.stringify of a manifest object is kept structural
(`FileContent.json`), so theorems speak about the manifest's fields rather
than about serialized text.
-/

/-- A JS string option, modelling `process.argv[i]` which may be
`undefined`.  JS truthiness on strings: `undefined` and `""` are falsy. -/
def falsy : Option String → Bool
  | none => true
  | some s => s = ""

/-- JS `a || b` for an optional string `a` (used for
`require('./package.json').version || '1.0.0'` and
`process.argv[4] || templateOrName`). -/
def jsOr (a : Option String) (b : String) : String :=
  match a with
  | none => b
  | some s => if s = "" then b else s

/-- `path.join a b` for the simple relative segments this program joins. -/
def pjoin (a b : String) : String := a ++ "/" ++ b

/-- `path.join(__dirname, 'main.wasm')`. -/
def wasmPath (dirname : String) : String := pjoin dirname "main.wasm"

/-- In-memory package manifest before `JSON.stringify`.  Fields that a
given flow does not put into the object literal stay `none` (the
serialized JSON then simply lacks the key). -/
structure Manifest where
  name : String
  version : String
  description : Option String := none
  main : String
  scripts : Option (List (String × String)) := none
  dependencies : Option (List (String × String)) := none
deriving DecidableEq, Repr

/-- The dependency mapping a manifest denotes: an absent `dependencies`
key means the empty mapping (npm semantics). -/
def Manifest.depsMap (m : Manifest) : List (String × String) :=
  m.dependencies.getD []

/-- Content handed to `fs.writeFileSync`: either a stringified manifest
object or plain text. -/
inductive FileContent where
  | json (m : Manifest)
  | text (s : String)
deriving DecidableEq, Repr

/-- One observable effect of a launcher run.  `stdout`/`stderr` are lines
(`console.log` / `console.error`) or raw banner writes; `exec` is an
`execSync` subprocess invocation with its optional `cwd` option;
`removeFile` is in the effect vocabulary but is never emitted — the
launcher deletes nothing (no rollback anywhere). -/
inductive Effect where
  | stdout (s : String)
  | stderr (s : String)
  | writeFile (p : String) (c : FileContent)
  | mkdir (p : String)
  | removeFile (p : String)
  | exec (cmd : String) (cwd : Option String)
deriving DecidableEq, Repr

/-- The sandbox execution context built by `new WASI({...})`. -/
structure SandboxCtx where
  version : String
  args : List String
  env : List (String × String)
  preopens : List (String × String)
deriving DecidableEq, Repr

/-- How a `run()` invocation ends: return (the process then exits 0), or
hand-off to the in-process WASI sandbox with a constructed context. -/
inductive Outcome where
  | exit0
  | sandbox (ctx : SandboxCtx)
deriving DecidableEq, Repr

/-- Facts the launcher reads from its host environment. -/
structure Host where
  /-- `__dirname`. -/
  dirname : String
  /-- `process.cwd()`. -/
  cwd : String
  /-- `path.basename(process.cwd())`. -/
  cwdBase : String
  /-- `process.env` as a key/value list. -/
  env : List (String × String)
  /-- `require('./package.json').version` (may be `undefined`). -/
  pkgVersion : Option String
  /-- `fs.existsSync` oracle on relative paths. -/
  existsSync : String → Bool
  /-- whether an `execSync` of an npm command succeeds. -/
  npmOk : Bool
  /-- `e.message` of the error thrown when `execSync` fails. -/
  npmErrMsg : String

/-- `{...process.env, PWD: process.cwd()}`: every host variable, with
`PWD` bound to the current directory. -/
def setEnv (env : List (String × String)) (k v : String) :
    List (String × String) :=
  (env.filter (fun p => p.1 ≠ k)) ++ [(k, v)]

/-- The `new WASI({...})` context of the fall-through execution path:
module binary path followed by the raw argument tail, host env plus `PWD`,
and the two fixed filesystem capability grants. -/
def mkSandbox (h : Host) (argv : List String) : SandboxCtx :=
  { version := "preview1"
    args := wasmPath h.dirname :: argv
    env := setEnv h.env "PWD" h.cwd
    preopens := [(".", "."), ("/", "/")] }

/-- Minimal manifest synthesized by the install shim when no
`package.json` exists (no `description`, `scripts` or `dependencies`
keys in the object literal). -/
def shimManifest (base : String) : Manifest :=
  { name := base, version := "1.0.0", main := "index.js" }

/-- Manifest written by `init`. -/
def initManifest (base : String) : Manifest :=
  { name := base
    version := "1.0.0"
    description := some "An Elphadeal Project"
    main := "index.js"
    scripts := some [("start", "elphadeal index.js")]
    dependencies := some [] }

/-- Manifest written by `create` (both variants). -/
def createManifest (n : String) : Manifest :=
  { name := n, version := "0.1.0", main := "index.js", dependencies := some [] }

/-- The `install`/`add`/`i` handler, identical in both variants.
`pkg` is `process.argv[3]`. -/
def installCmd (h : Host) (pkg : Option String) : List Effect × Outcome :=
  match pkg with
  | none => ([.stdout "Usage: ./elphadeal.js install <package-name>"], .exit0)
  | some p =>
    if p = "" then
      ([.stdout "Usage: ./elphadeal.js install <package-name>"], .exit0)
    else
      ([.stdout ("[ELPHADEAL] Installing " ++ p ++ " via npm-shim...")]
        ++ (if h.existsSync "package.json" then []
            else [.writeFile "package.json" (.json (shimManifest h.cwdBase))])
        ++ [.exec ("npm install " ++ p) none]
        ++ (if h.npmOk then
              [.stdout ("\n[ELPHADEAL] Package " ++ p ++ " is ready.")]
            else [.stderr "Installation failed."]), .exit0)

/-- The `uninstall`/`remove`/`rm`/`un` handler, identical in both
variants. -/
def uninstallCmd (h : Host) (pkg : Option String) : List Effect × Outcome :=
  match pkg with
  | none => ([.stdout "Usage: ./elphadeal.js uninstall <package-name>"], .exit0)
  | some p =>
    if p = "" then
      ([.stdout "Usage: ./elphadeal.js uninstall <package-name>"], .exit0)
    else
      ([.stdout ("[ELPHADEAL] Removing " ++ p ++ "...")]
        ++ [.exec ("npm uninstall " ++ p) none]
        ++ (if h.npmOk then
              [.stdout ("\n[ELPHADEAL] Package " ++ p ++ " removed.")]
            else [.stderr "Uninstallation failed."]), .exit0)

/-- The `init` handler, identical in both variants. -/
def initCmd (h : Host) : List Effect × Outcome :=
  if h.existsSync "package.json" then
    ([.stdout "package.json already exists."], .exit0)
  else
    ([.writeFile "package.json" (.json (initManifest h.cwdBase)),
      .stdout "[ELPHADEAL] Initialized package.json"], .exit0)

/-- Generated `index.js` body in the templated `create` branch of the
`runT` variant (after `.trim()`), grouped so the template name `t` and
project name `n` appear as literal substrings. -/
def templatedIndex (t n : String) : String :=
  "const pkg = require(\x27" ++
    (t ++
      ("\x27);\nconsole.log(\x27--- ELPHADEAL TEMPLATE APP: " ++
        (t ++
          (" ---\x27);\nconsole.log(\x27Loaded package:\x27, typeof pkg === \x27object\x27 ? Object.keys(pkg) : typeof pkg);\n\n// UI Render\nconst root = document.createElement(\x27div\x27);\nroot.innerHTML = \x27<h1>Project: " ++
            (n ++
              ("</h1><p>Template: " ++
                (t ++
                  " is ready.</p>\x27;\ndocument.body.appendChild(root);\nrenderToConsole(document.body);")))))))

/-- Generated `index.js` body in the non-templated `create` branch of the
`runT` variant (after `.trim()`). -/
def plainIndexT : String :=
  "const App = require(\x27./App\x27);\nconsole.log(\x27--- ELPHADEAL BOILERPLATE STARTING ---\x27);\ndocument.body.appendChild(App());\nrenderToConsole(document.body);"

/-- Generated `App.js` body in the non-templated `create` branch of the
`runT` variant (after `.trim()`). -/
def appJsT : String :=
  "function App() \x7b\n  const div = document.createElement(\x27div\x27);\n  div.innerHTML = \x27Hello from Elphadeal!\x27;\n  return div;\n\x7d\nmodule.exports = App;"

/-- Generated `index.js` body of the `runS` variant's `create` (after
`.trim()`). -/
def indexJsS (n : String) : String :=
  "const App = require(\x27./App\x27);\nconsole.log(\x27--- ELPHADEAL APP STARTING ---\x27);\n\n// UI Render\ndocument.body.appendChild(App());\nrenderToConsole(document.body);\n\n// Graphic Engine Demo\nconst canvas = createCanvas(80, 10);\nconst ctx = canvas.getContext(\x272d\x27);\nctx.fillRect(0, 0, 80, 10, \x27 \x27, \x2744\x27);\nctx.fillText(\x27WELCOME TO \x27 + \x27" ++
    (n.toUpper ++ "\x27, 5, 4, \x2737;1\x27);\ncanvas.flush();")

/-- Generated `App.js` body of the `runS` variant's `create` (after
`.trim()`; the source template has two lines holding only two spaces). -/
def appJsS : String :=
  "function App() \x7b\n  const div = document.createElement(\x27div\x27);\n  div.id = \x27root\x27;\n  div.innerHTML = \x27Hello from Elphadeal Component!\x27;\n  \n  const span = document.createElement(\x27span\x27);\n  span.innerHTML = \x27 (Dynamic Rendering Active)\x27;\n  div.appendChild(span);\n  \n  return div;\n\x7d\nmodule.exports = App;"

/-- `create` handler of the `runT` variant: `a3 = process.argv[3]`
(template-or-name), `a4 = process.argv[4]` (optional project name).
`projectName = process.argv[4] || templateOrName`;
`isTemplated = process.argv[4] !== undefined`. -/
def createCmdT (h : Host) (a3 a4 : Option String) : List Effect × Outcome :=
  match a3 with
  | none =>
    ([.stdout "Usage: ./elphadeal.js create [template] <project-name>",
      .stdout "Example: ./elphadeal.js create lodash my-lodash-app"], .exit0)
  | some t =>
    if t = "" then
      ([.stdout "Usage: ./elphadeal.js create [template] <project-name>",
        .stdout "Example: ./elphadeal.js create lodash my-lodash-app"], .exit0)
    else
      let projectName := jsOr a4 t
      let isTemplated := a4.isSome
      if h.existsSync projectName then
        ([.stderr ("Error: Directory \"" ++ projectName ++ "\" already exists.")],
          .exit0)
      else
        let before : List Effect :=
          [.stdout ("[ELPHADEAL] Creating new project \"" ++ projectName ++ "\"..."),
            .mkdir projectName,
            .writeFile (pjoin projectName "package.json")
              (.json (createManifest projectName))]
        if isTemplated then
          let withNpm := before ++
            [.stdout ("[ELPHADEAL] Applying template/dependency: " ++ t ++ "..."),
              .exec ("npm install " ++ t) (some projectName)]
          if h.npmOk then
            (withNpm ++
              [.writeFile (pjoin projectName "index.js")
                  (.text (templatedIndex t projectName)),
                .stdout ("\n[ELPHADEAL] Successfully created " ++ projectName ++ "!"),
                .stdout ("To run your app:\n  cd " ++ projectName ++
                  "\n  ../elphadeal.js index.js")], .exit0)
          else
            (withNpm ++
              [.stderr ("Failed to create project: " ++ h.npmErrMsg)], .exit0)
        else
          (before ++
            [.writeFile (pjoin projectName "App.js") (.text appJsT),
              .writeFile (pjoin projectName "index.js") (.text plainIndexT),
              .stdout ("\n[ELPHADEAL] Successfully created " ++ projectName ++ "!"),
              .stdout ("To run your app:\n  cd " ++ projectName ++
                "\n  ../elphadeal.js index.js")], .exit0)

/-- `create` handler of the `runS` variant: a single project-name
argument `a3 = process.argv[3]`. -/
def createCmdS (h : Host) (a3 : Option String) : List Effect × Outcome :=
  match a3 with
  | none => ([.stdout "Usage: ./elphadeal.js create <project-name>"], .exit0)
  | some n =>
    if n = "" then
      ([.stdout "Usage: ./elphadeal.js create <project-name>"], .exit0)
    else if h.existsSync n then
      ([.stderr ("Error: Directory \"" ++ n ++ "\" already exists.")], .exit0)
    else
      ([.stdout ("[ELPHADEAL] Scaffolding new browser app in ./" ++ n ++ "..."),
        .mkdir n,
        .writeFile (pjoin n "package.json") (.json (createManifest n)),
        .writeFile (pjoin n "index.js") (.text (indexJsS n)),
        .writeFile (pjoin n "App.js") (.text appJsS),
        .stdout ("\n[ELPHADEAL] Successfully created " ++ n ++ "!"),
        .stdout ("To run your app:\n  cd " ++ n ++ "\n  ../elphadeal.js index.js")],
        .exit0)

/-- A horizontal rule line of `n` copies of `c` (the banners' `=` and `-`
separators, built by replication so the text is kept verbatim). -/
def sepRule (c : Char) (n : Nat) : String := String.mk (List.replicate n c)

/-- Static help banner of the `runT` variant (`process.stdout.write` of a
template literal; `v` is `require('./package.json').version || '1.0.0'`). -/
def helpBannerT (v : String) : String :=
  "\nELPHADEAL JavaScript Runtime v" ++ v ++ "\n" ++ sepRule (Char.ofNat 61) 50 ++
    "\n\nUsage:\n  ./elphadeal.js [command|file] [options]\n\nCommands:\n  create <pkg> <name> Create a new project from a specific template package\n  init               Initialize a new package.json in current folder\n  install <package>  Install a package from npm (alias: add)\n  uninstall <pkg>    Remove a package from node_modules (alias: remove)\n  help               Show this help message\n\nOptions:\n  -e \x27code\x27          Execute a JavaScript string directly\n  [file.js]         Execute a JavaScript file\n\nCapabilities:\n  [✓] WASI (wasip1) Native execution via main.wasm\n  [✓] CommonJS require() with npm-style node_modules resolution\n  [✓] DOM-like Tree API (document.createElement, appendChild)\n  [✓] GPU-like Graphic Engine (createCanvas, getContext(\x272d\x27), flush)\n  [✓] Event Loop (setTimeout, Promises, Async processing)\n  [✓] Web APIs (performance, console, atob/btoa)\n  [✓] File System Access (read/write files via WASI)\n\nExample:\n  ./elphadeal.js install lodash\n  ./elphadeal.js -e \"console.log(require(\x27lodash\x27).VERSION)\"\n  ./elphadeal.js example.js\n\n" ++ sepRule (Char.ofNat 45) 50 ++ "\nBuilt with Goja (Go) and Node.js WASI.\n"

/-- Static help banner of the `runS` variant (differs from `helpBannerT`
only in the `create` usage line). -/
def helpBannerS (v : String) : String :=
  "\nELPHADEAL JavaScript Runtime v" ++ v ++ "\n" ++ sepRule (Char.ofNat 61) 50 ++
    "\n\nUsage:\n  ./elphadeal.js [command|file] [options]\n\nCommands:\n  create <name>      Create a new project folder with boilerplate\n  init               Initialize a new package.json in current folder\n  install <package>  Install a package from npm (alias: add)\n  uninstall <pkg>    Remove a package from node_modules (alias: remove)\n  help               Show this help message\n\nOptions:\n  -e \x27code\x27          Execute a JavaScript string directly\n  [file.js]         Execute a JavaScript file\n\nCapabilities:\n  [✓] WASI (wasip1) Native execution via main.wasm\n  [✓] CommonJS require() with npm-style node_modules resolution\n  [✓] DOM-like Tree API (document.createElement, appendChild)\n  [✓] GPU-like Graphic Engine (createCanvas, getContext(\x272d\x27), flush)\n  [✓] Event Loop (setTimeout, Promises, Async processing)\n  [✓] Web APIs (performance, console, atob/btoa)\n  [✓] File System Access (read/write files via WASI)\n\nExample:\n  ./elphadeal.js install lodash\n  ./elphadeal.js -e \"console.log(require(\x27lodash\x27).VERSION)\"\n  ./elphadeal.js example.js\n\n" ++ sepRule (Char.ofNat 45) 50 ++ "\nBuilt with Goja (Go) and Node.js WASI.\n"

/-- The `run()` body of the `src/elphadeal.js` variant: a chain of exact
string-equality tests on `process.argv[2]` (`argv.get? 0` of the tail),
falling through to the sandbox bootstrap. -/
def runT (h : Host) (argv : List String) : List Effect × Outcome :=
  let a := argv.get? 0
  if a = some "help" then
    ([.stdout (helpBannerT (jsOr h.pkgVersion "1.0.0"))], .exit0)
  else if a = some "install" ∨ a = some "add" ∨ a = some "i" then
    installCmd h (argv.get? 1)
  else if a = some "uninstall" ∨ a = some "remove" ∨ a = some "rm" ∨
      a = some "un" then
    uninstallCmd h (argv.get? 1)
  else if a = some "init" then
    initCmd h
  else if a = some "create" then
    createCmdT h (argv.get? 1) (argv.get? 2)
  else
    ([], .sandbox (mkSandbox h argv))

/-- The `run()` body of the `src/unnamed/part_000` variant. -/
def runS (h : Host) (argv : List String) : List Effect × Outcome :=
  let a := argv.get? 0
  if a = some "help" then
    ([.stdout (helpBannerS (jsOr h.pkgVersion "1.0.0"))], .exit0)
  else if a = some "install" ∨ a = some "add" ∨ a = some "i" then
    installCmd h (argv.get? 1)
  else if a = some "uninstall" ∨ a = some "remove" ∨ a = some "rm" ∨
      a = some "un" then
    uninstallCmd h (argv.get? 1)
  else if a = some "init" then
    initCmd h
  else if a = some "create" then
    createCmdS h (argv.get? 1)
  else
    ([], .sandbox (mkSandbox h argv))

/-- A trapped start-up failure surfaced to `run().catch`, carrying the
JS error's `code` tag and its full printed form. -/
structure Fault where
  code : String
  message : String
deriving DecidableEq, Repr

/-- The `code` tag Node attaches to the "module not found" sandbox
start-up fault, the one the launcher swallows. -/
def moduleNotFoundCode : String := "ERR_WASI_NOT_FOUND"

/-- The `run().catch(err => ...)` handler, identical in both variants:
stderr output produced, paired with the `process.exit` code. -/
def catchHandler (e : Fault) : List Effect × Nat :=
  ((if e.code ≠ moduleNotFoundCode then [.stderr e.message] else []), 1)

/-- The inner `try { wasi.start(...) } catch` around sandbox start,
identical in both variants: a fault tagged `process.exit` is swallowed
(normal module termination), anything else is rethrown to `run().catch`. -/
def startTrap (e : Fault) : Option Fault :=
  if e.code ≠ "process.exit" then some e else none

/-- Effects that mutate the filesystem. -/
def writes (es : List Effect) : List Effect :=
  es.filter (fun e =>
    match e with
    | .writeFile _ _ => true
    | .mkdir _ => true
    | .removeFile _ => true
    | _ => false)

/-- Files present after a trace: paths written and not later removed. -/
def filesAfter (es : List Effect) : List String :=
  es.foldl (fun acc e =>
    match e with
    | .writeFile p _ => if p ∈ acc then acc else acc ++ [p]
    | .removeFile p => acc.filter (fun q => q ≠ p)
    | _ => acc) []

/-- Paths of generated files written inside project directory `dir`,
excluding its manifest. -/
def sourceWrites (dir : String) (es : List Effect) : List String :=
  es.filterMap (fun e =>
    match e with
    | .writeFile p _ => if p = pjoin dir "package.json" then none else some p
    | _ => none)

/-- The text content last written to path `p` in a trace, if any. -/
def writtenText (es : List Effect) (p : String) : Option String :=
  es.reverse.findSome? (fun e =>
    match e with
    | .writeFile q (.text s) => if q = p then some s else none
    | _ => none)

/-- The stderr lines of a trace. -/
def stderrLines (es : List Effect) : List Effect :=
  es.filter (fun e => match e with | .stderr _ => true | _ => false)

/-- The subprocess invocations of a trace. -/
def execCalls (es : List Effect) : List Effect :=
  es.filter (fun e => match e with | .exec _ _ => true | _ => false)

/-- The fixed internal command-name table; any other first argument falls
through to the sandbox. -/
def internalCommands : List String :=
  ["help", "install", "add", "i", "uninstall", "remove", "rm", "un",
    "init", "create"]

/-- Alias set of the install command. -/
def installAliases : List String := ["install", "add", "i"]

/-- Alias set of the uninstall command. -/
def uninstallAliases : List String := ["uninstall", "remove", "rm", "un"]

/-- A concrete host used to instantiate theorems: empty directory
(nothing exists), npm succeeds. -/
def sampleHost : Host :=
  { dirname := "/opt/elphadeal"
    cwd := "/home/u/proj"
    cwdBase := "proj"
    env := [("PATH", "/usr/bin"), ("PWD", "/somewhere/else")]
    pkgVersion := some "1.0.0"
    existsSync := fun _ => false
    npmOk := true
    npmErrMsg := "Command failed: npm install left-pad" }

/-- A concrete host on which every path exists and npm fails. -/
def sampleHostX : Host :=
  { dirname := "/opt/elphadeal"
    cwd := "/home/u/proj"
    cwdBase := "proj"
    env := [("PATH", "/usr/bin")]
    pkgVersion := none
    existsSync := fun _ => true
    npmOk := false
    npmErrMsg := "Command failed: npm install left-pad" }

/-- A concrete host with no `package.json` and a failing npm. -/
def sampleHostF : Host :=
  { dirname := "/opt/elphadeal"
    cwd := "/home/u/proj"
    cwdBase := "proj"
    env := []
    pkgVersion := none
    existsSync := fun _ => false
    npmOk := false
    npmErrMsg := "Command failed: npm install nosuchpkg" }

/-- C1: every alias in an alias set (`install`/`add`/`i`,
`uninstall`/`remove`/`rm`/`un`), dispatched as the first CLI argument with
the same trailing arguments, routes to the identical handler and produces
the identical effects and outcome, in both source variants. -/
theorem C1_alias_dispatch (h : Host) (s u : String) (rest rest2 : List String)
    (hs : s ∈ installAliases) (hu : u ∈ uninstallAliases) :
    (runT h (s :: rest) = runT h ("install" :: rest) ∧
      runS h (s :: rest) = runS h ("install" :: rest)) ∧
    (runT h (u :: rest2) = runT h ("uninstall" :: rest2) ∧
      runS h (u :: rest2) = runS h ("uninstall" :: rest2)) := by
  constructor
  · simp only [installAliases, List.mem_cons, List.not_mem_nil, or_false] at hs
    rcases hs with h1 | h1 | h1 <;> subst h1 <;> exact ⟨rfl, rfl⟩
  · simp only [uninstallAliases, List.mem_cons, List.not_mem_nil, or_false] at hu
    rcases hu with h1 | h1 | h1 | h1 <;> subst h1 <;> exact ⟨rfl, rfl⟩

theorem C1_alias_dispatch_witness :
    (runT sampleHost ["add", "lodash"] = runT sampleHost ["install", "lodash"] ∧
      runS sampleHost ["add", "lodash"] = runS sampleHost ["install", "lodash"]) ∧
    (runT sampleHost ["rm", "lodash"] = runT sampleHost ["uninstall", "lodash"] ∧
      runS sampleHost ["rm", "lodash"] = runS sampleHost ["uninstall", "lodash"]) :=
  C1_alias_dispatch sampleHost "add" "rm" ["lodash"] ["lodash"]
    (by decide) (by decide)

/-- C3: a sandbox start-up fault whose kind is "module not found"
(`code = ERR_WASI_NOT_FOUND`) produces no stderr output and exit code 1;
every other fault kind puts the fault's full message on stderr and also
exits 1; in both cases the exit code is non-zero. -/
theorem C3_fault_reporting :
    (∀ m, catchHandler ⟨moduleNotFoundCode, m⟩ = ([], 1)) ∧
    (∀ c m, c ≠ moduleNotFoundCode →
      catchHandler ⟨c, m⟩ = ([.stderr m], 1)) ∧
    (1 : Nat) ≠ 0 := by
  refine ⟨fun m => by simp [catchHandler],
    fun c m hc => by simp [catchHandler, hc], by decide⟩

theorem C3_fault_reporting_witness :
    catchHandler ⟨moduleNotFoundCode, "boom"⟩ = ([], 1) ∧
    catchHandler ⟨"ENOENT", "Error: ENOENT, no such file"⟩ =
      ([.stderr "Error: ENOENT, no such file"], 1) :=
  ⟨C3_fault_reporting.1 "boom",
    C3_fault_reporting.2.1 "ENOENT" "Error: ENOENT, no such file" (by decide)⟩

/-- C5: `init` in a directory that already has a `package.json` prints
the message, performs zero filesystem writes, and ends in a normal
exit-0 return, in both source variants. -/
theorem C5_init_existing (h : Host) (hex : h.existsSync "package.json" = true) :
    runT h ["init"] = ([.stdout "package.json already exists."], .exit0) ∧
    runS h ["init"] = ([.stdout "package.json already exists."], .exit0) ∧
    writes (runT h ["init"]).1 = [] ∧
    writes (runS h ["init"]).1 = [] := by
  have hT : runT h ["init"] = ([.stdout "package.json already exists."], .exit0) := by
    simp [runT, initCmd, hex]
  have hS : runS h ["init"] = ([.stdout "package.json already exists."], .exit0) := by
    simp [runS, initCmd, hex]
  exact ⟨hT, hS, by rw [hT]; rfl, by rw [hS]; rfl⟩

theorem C5_init_existing_witness :
    runT sampleHostX ["init"] = ([.stdout "package.json already exists."], .exit0) ∧
    runS sampleHostX ["init"] = ([.stdout "package.json already exists."], .exit0) ∧
    writes (runT sampleHostX ["init"]).1 = [] ∧
    writes (runS sampleHostX ["init"]).1 = [] :=
  C5_init_existing sampleHostX rfl

/-- C8: `install` or `uninstall` (any alias) with no package-name
argument prints the usage line on stdout, invokes no subprocess, and
returns for a normal exit 0, in both source variants. -/
theorem C8_missing_package_name (h : Host) (s u : String)
    (hs : s ∈ installAliases) (hu : u ∈ uninstallAliases) :
    (runT h [s] = ([.stdout "Usage: ./elphadeal.js install <package-name>"], .exit0) ∧
      runS h [s] = ([.stdout "Usage: ./elphadeal.js install <package-name>"], .exit0) ∧
      execCalls (runT h [s]).1 = [] ∧ execCalls (runS h [s]).1 = []) ∧
    (runT h [u] = ([.stdout "Usage: ./elphadeal.js uninstall <package-name>"], .exit0) ∧
      runS h [u] = ([.stdout "Usage: ./elphadeal.js uninstall <package-name>"], .exit0) ∧
      execCalls (runT h [u]).1 = [] ∧ execCalls (runS h [u]).1 = []) := by
  constructor
  · simp only [installAliases, List.mem_cons, List.not_mem_nil, or_false] at hs
    rcases hs with h1 | h1 | h1 <;> subst h1 <;> exact ⟨rfl, rfl, rfl, rfl⟩
  · simp only [uninstallAliases, List.mem_cons, List.not_mem_nil, or_false] at hu
    rcases hu with h1 | h1 | h1 | h1 <;> subst h1 <;> exact ⟨rfl, rfl, rfl, rfl⟩

theorem C8_missing_package_name_witness :
    (runT sampleHost ["i"] =
        ([.stdout "Usage: ./elphadeal.js install <package-name>"], .exit0) ∧
      runS sampleHost ["i"] =
        ([.stdout "Usage: ./elphadeal.js install <package-name>"], .exit0) ∧
      execCalls (runT sampleHost ["i"]).1 = [] ∧
      execCalls (runS sampleHost ["i"]).1 = []) ∧
    (runT sampleHost ["un"] =
        ([.stdout "Usage: ./elphadeal.js uninstall <package-name>"], .exit0) ∧
      runS sampleHost ["un"] =
        ([.stdout "Usage: ./elphadeal.js uninstall <package-name>"], .exit0) ∧
      execCalls (runT sampleHost ["un"]).1 = [] ∧
      execCalls (runS sampleHost ["un"]).1 = []) :=
  C8_missing_package_name sampleHost "i" "un" (by decide) (by decide)

/-- C2: when the first argument matches no internal command (and also
when there is no argument at all), both variants fall through to the
sandbox, and the constructed sandbox argument vector is the module binary
path followed by the raw trailing CLI arguments in order; in particular
for `["-e", "1+1"]` it is `[modulePath, "-e", "1+1"]` exactly. -/
theorem C2_sandbox_forwarding (h : Host) (argv : List String)
    (hno : ∀ a, argv.get? 0 = some a → a ∉ internalCommands) :
    runT h argv = ([], .sandbox (mkSandbox h argv)) ∧
    runS h argv = ([], .sandbox (mkSandbox h argv)) ∧
    (mkSandbox h argv).args = wasmPath h.dirname :: argv ∧
    (mkSandbox h ["-e", "1+1"]).args = [wasmPath h.dirname, "-e", "1+1"] := by
  cases argv with
  | nil => exact ⟨rfl, rfl, rfl, rfl⟩
  | cons a l =>
    have ha := hno a rfl
    simp only [internalCommands, List.mem_cons, List.not_mem_nil, or_false,
      not_or] at ha
    obtain ⟨h1, h2, h3, h4, h5, h6, h7, h8, h9, h10⟩ := ha
    refine ⟨?_, ?_, rfl, rfl⟩ <;>
      simp [runT, runS, h1, h2, h3, h4, h5, h6, h7, h8, h9, h10]

theorem C2_sandbox_forwarding_witness :
    runT sampleHost ["-e", "1+1"] =
      ([], .sandbox (mkSandbox sampleHost ["-e", "1+1"])) ∧
    runS sampleHost ["-e", "1+1"] =
      ([], .sandbox (mkSandbox sampleHost ["-e", "1+1"])) ∧
    (mkSandbox sampleHost ["-e", "1+1"]).args =
      wasmPath sampleHost.dirname :: ["-e", "1+1"] ∧
    (mkSandbox sampleHost ["-e", "1+1"]).args =
      [wasmPath sampleHost.dirname, "-e", "1+1"] :=
  C2_sandbox_forwarding sampleHost ["-e", "1+1"]
    (fun a ha => by injection ha with ha; subst ha; decide)

/-- C4: `create <name>` when a directory `<name>` already exists: the
existence check precedes any mutation, so the whole trace is the single
conflict message on stderr — zero filesystem writes — and the run returns
for a normal exit 0, in both variants. -/
theorem C4_create_conflict (h : Host) (n : String) (hn : n ≠ "")
    (hex : h.existsSync n = true) :
    runT h ["create", n] =
      ([.stderr ("Error: Directory \"" ++ n ++ "\" already exists.")], .exit0) ∧
    runS h ["create", n] =
      ([.stderr ("Error: Directory \"" ++ n ++ "\" already exists.")], .exit0) ∧
    writes (runT h ["create", n]).1 = [] ∧
    writes (runS h ["create", n]).1 = [] := by
  have hT : runT h ["create", n] =
      ([.stderr ("Error: Directory \"" ++ n ++ "\" already exists.")], .exit0) := by
    simp [runT, createCmdT, jsOr, hn, hex]
  have hS : runS h ["create", n] =
      ([.stderr ("Error: Directory \"" ++ n ++ "\" already exists.")], .exit0) := by
    simp [runS, createCmdS, hn, hex]
  exact ⟨hT, hS, by rw [hT]; rfl, by rw [hS]; rfl⟩

theorem C4_create_conflict_witness :
    runT sampleHostX ["create", "demo"] =
      ([.stderr ("Error: Directory \"" ++ "demo" ++ "\" already exists.")], .exit0) ∧
    runS sampleHostX ["create", "demo"] =
      ([.stderr ("Error: Directory \"" ++ "demo" ++ "\" already exists.")], .exit0) ∧
    writes (runT sampleHostX ["create", "demo"]).1 = [] ∧
    writes (runS sampleHostX ["create", "demo"]).1 = [] :=
  C4_create_conflict sampleHostX "demo" (by decide) rfl

/-- C6: `install <p>` with no `package.json` in the current directory
first writes the synthesized minimal manifest — name the current
directory's base name, version `1.0.0`, entry `index.js`, empty
dependency mapping (no `dependencies` key) — and only then invokes the
host tool's install subcommand; both variants share this handler
verbatim. -/
theorem C6_install_preflight (h : Host) (p : String) (rest : List String)
    (hp : p ≠ "") (hnm : h.existsSync "package.json" = false) :
    (∃ tail, (runT h ("install" :: p :: rest)).1 =
      [.stdout ("[ELPHADEAL] Installing " ++ p ++ " via npm-shim..."),
        .writeFile "package.json" (.json (shimManifest h.cwdBase)),
        .exec ("npm install " ++ p) none] ++ tail) ∧
    (shimManifest h.cwdBase).name = h.cwdBase ∧
    (shimManifest h.cwdBase).version = "1.0.0" ∧
    (shimManifest h.cwdBase).main = "index.js" ∧
    (shimManifest h.cwdBase).depsMap = [] ∧
    runS h ("install" :: p :: rest) = runT h ("install" :: p :: rest) := by
  refine ⟨⟨if h.npmOk then [.stdout ("\n[ELPHADEAL] Package " ++ p ++ " is ready.")]
      else [.stderr "Installation failed."], ?_⟩, rfl, rfl, rfl, rfl, rfl⟩
  simp [runT, installCmd, hp, hnm]

theorem C6_install_preflight_witness :
    (∃ tail, (runT sampleHost ("install" :: "left-pad" :: [])).1 =
      [.stdout ("[ELPHADEAL] Installing " ++ "left-pad" ++ " via npm-shim..."),
        .writeFile "package.json" (.json (shimManifest sampleHost.cwdBase)),
        .exec ("npm install " ++ "left-pad") none] ++ tail) ∧
    (shimManifest sampleHost.cwdBase).name = sampleHost.cwdBase ∧
    (shimManifest sampleHost.cwdBase).version = "1.0.0" ∧
    (shimManifest sampleHost.cwdBase).main = "index.js" ∧
    (shimManifest sampleHost.cwdBase).depsMap = [] ∧
    runS sampleHost ("install" :: "left-pad" :: []) =
      runT sampleHost ("install" :: "left-pad" :: []) :=
  C6_install_preflight sampleHost "left-pad" [] (by decide) rfl

/-- C9: when the host tool's install subcommand fails after the shim
created the manifest, the trace's only stderr line is the single generic
failure message, the freshly written `package.json` is still present
afterwards, and nothing is ever removed (no rollback); both variants
share this handler verbatim. -/
theorem C9_install_failure_no_rollback (h : Host) (p : String)
    (rest : List String) (hp : p ≠ "")
    (hnm : h.existsSync "package.json" = false) (hfail : h.npmOk = false) :
    stderrLines (runT h ("install" :: p :: rest)).1 =
      [.stderr "Installation failed."] ∧
    "package.json" ∈ filesAfter (runT h ("install" :: p :: rest)).1 ∧
    (∀ q, Effect.removeFile q ∉ (runT h ("install" :: p :: rest)).1) ∧
    runS h ("install" :: p :: rest) = runT h ("install" :: p :: rest) := by
  have htr : (runT h ("install" :: p :: rest)).1 =
      [.stdout ("[ELPHADEAL] Installing " ++ p ++ " via npm-shim..."),
        .writeFile "package.json" (.json (shimManifest h.cwdBase)),
        .exec ("npm install " ++ p) none,
        .stderr "Installation failed."] := by
    simp [runT, installCmd, hp, hnm, hfail]
  refine ⟨?_, ?_, ?_, rfl⟩
  · rw [htr]; rfl
  · rw [htr]; simp [filesAfter]
  · intro q
    rw [htr]
    simp

theorem C9_install_failure_no_rollback_witness :
    stderrLines (runT sampleHostF ("install" :: "nosuchpkg" :: [])).1 =
      [.stderr "Installation failed."] ∧
    "package.json" ∈ filesAfter (runT sampleHostF ("install" :: "nosuchpkg" :: [])).1 ∧
    (∀ q, Effect.removeFile q ∉ (runT sampleHostF ("install" :: "nosuchpkg" :: [])).1) ∧
    runS sampleHostF ("install" :: "nosuchpkg" :: []) =
      runT sampleHostF ("install" :: "nosuchpkg" :: []) :=
  C9_install_failure_no_rollback sampleHostF "nosuchpkg" [] (by decide) rfl rfl

/-- Appending a common prefix preserves string inequality (used to tell
generated file paths inside one project directory apart). -/
theorem append_ne_of_ne (m : String) {a b : String} (hab : a ≠ b) :
    m ++ a ≠ m ++ b := by
  intro hc
  apply hab
  apply String.ext
  have hd : m.data ++ a.data = m.data ++ b.data := by
    simpa [String.data_append] using congrArg String.data hc
  exact List.append_cancel_left hd

/-- C7: in the templated-create variant, a successful non-templated
`create <n>` writes exactly two generated source files besides the
manifest (the companion `App.js` and the entry `index.js`), while a
successful templated `create <t> <n>` writes exactly one (`index.js`),
whose content contains the template/package name literally. -/
theorem C7_create_generated_files (h : Host) (t n : String) (ht : t ≠ "")
    (hn : n ≠ "") (hne : h.existsSync n = false) (hok : h.npmOk = true) :
    sourceWrites n (runT h ["create", n]).1 =
      [pjoin n "App.js", pjoin n "index.js"] ∧
    sourceWrites n (runT h ["create", t, n]).1 = [pjoin n "index.js"] ∧
    (∃ pre post, writtenText (runT h ["create", t, n]).1 (pjoin n "index.js") =
      some (pre ++ (t ++ post))) := by
  have hApp : pjoin n "App.js" ≠ pjoin n "package.json" := by
    show (n ++ "/") ++ "App.js" ≠ (n ++ "/") ++ "package.json"
    exact append_ne_of_ne (n ++ "/") (by decide)
  have hIdx : pjoin n "index.js" ≠ pjoin n "package.json" := by
    show (n ++ "/") ++ "index.js" ≠ (n ++ "/") ++ "package.json"
    exact append_ne_of_ne (n ++ "/") (by decide)
  have htr1 : (runT h ["create", n]).1 =
      [.stdout ("[ELPHADEAL] Creating new project \"" ++ n ++ "\"..."),
        .mkdir n,
        .writeFile (pjoin n "package.json") (.json (createManifest n)),
        .writeFile (pjoin n "App.js") (.text appJsT),
        .writeFile (pjoin n "index.js") (.text plainIndexT),
        .stdout ("\n[ELPHADEAL] Successfully created " ++ n ++ "!"),
        .stdout ("To run your app:\n  cd " ++ n ++ "\n  ../elphadeal.js index.js")] := by
    simp [runT, createCmdT, jsOr, hn, hne]
  have htr2 : (runT h ["create", t, n]).1 =
      [.stdout ("[ELPHADEAL] Creating new project \"" ++ n ++ "\"..."),
        .mkdir n,
        .writeFile (pjoin n "package.json") (.json (createManifest n)),
        .stdout ("[ELPHADEAL] Applying template/dependency: " ++ t ++ "..."),
        .exec ("npm install " ++ t) (some n),
        .writeFile (pjoin n "index.js") (.text (templatedIndex t n)),
        .stdout ("\n[ELPHADEAL] Successfully created " ++ n ++ "!"),
        .stdout ("To run your app:\n  cd " ++ n ++ "\n  ../elphadeal.js index.js")] := by
    simp [runT, createCmdT, jsOr, ht, hn, hne, hok]
  refine ⟨?_, ?_, ?_⟩
  · rw [htr1]
    simp [sourceWrites, hApp, hIdx]
  · rw [htr2]
    simp [sourceWrites, hIdx]
  · rw [htr2]
    have hw : writtenText
        [Effect.stdout ("[ELPHADEAL] Creating new project \"" ++ n ++ "\"..."),
          .mkdir n,
          .writeFile (pjoin n "package.json") (.json (createManifest n)),
          .stdout ("[ELPHADEAL] Applying template/dependency: " ++ t ++ "..."),
          .exec ("npm install " ++ t) (some n),
          .writeFile (pjoin n "index.js") (.text (templatedIndex t n)),
          .stdout ("\n[ELPHADEAL] Successfully created " ++ n ++ "!"),
          .stdout ("To run your app:\n  cd " ++ n ++ "\n  ../elphadeal.js index.js")]
        (pjoin n "index.js") = some (templatedIndex t n) := by
      simp [writtenText]
    rw [hw]
    exact ⟨_, _, rfl⟩

theorem C7_create_generated_files_witness :
    sourceWrites "app" (runT sampleHost ["create", "app"]).1 =
      [pjoin "app" "App.js", pjoin "app" "index.js"] ∧
    sourceWrites "app" (runT sampleHost ["create", "lodash", "app"]).1 =
      [pjoin "app" "index.js"] ∧
    (∃ pre post,
      writtenText (runT sampleHost ["create", "lodash", "app"]).1
        (pjoin "app" "index.js") = some (pre ++ ("lodash" ++ post))) :=
  C7_create_generated_files sampleHost "lodash" "app"
    (by decide) (by decide) rfl rfl

/-- C10 as stated is false at the input `create a ""`: the second
trailing argument is present (so the templated branch is selected with
template name `a`), yet the empty second argument is not used as the
project name — the scaffold targets directory `a`, not `""`
(`process.argv[4] || templateOrName` falls back on the empty string). -/
theorem C10_counterexample :
    Effect.exec "npm install a" (some "a") ∈
      (runT sampleHost ["create", "a", ""]).1 ∧
    Effect.mkdir "a" ∈ (runT sampleHost ["create", "a", ""]).1 ∧
    Effect.mkdir "" ∉ (runT sampleHost ["create", "a", ""]).1 := by
  decide

/-- C10 (amended): `create <x>` with exactly one trailing argument takes
`x` as the project name and the non-templated branch (companion `App.js`
generated); the templated branch is selected exactly when a second
trailing argument is present, with the first argument as template name;
the project name is then the second argument when it is non-empty, and
falls back to the first argument when the second is the empty string. -/
theorem C10_create_arity (h : Host) (x y : String) (hx : x ≠ "") (hy : y ≠ "")
    (hexx : h.existsSync x = false) (hexy : h.existsSync y = false)
    (hok : h.npmOk = true) :
    runT h ["create", x] =
      ([.stdout ("[ELPHADEAL] Creating new project \"" ++ x ++ "\"..."),
        .mkdir x,
        .writeFile (pjoin x "package.json") (.json (createManifest x)),
        .writeFile (pjoin x "App.js") (.text appJsT),
        .writeFile (pjoin x "index.js") (.text plainIndexT),
        .stdout ("\n[ELPHADEAL] Successfully created " ++ x ++ "!"),
        .stdout ("To run your app:\n  cd " ++ x ++ "\n  ../elphadeal.js index.js")],
        .exit0) ∧
    runT h ["create", x, y] =
      ([.stdout ("[ELPHADEAL] Creating new project \"" ++ y ++ "\"..."),
        .mkdir y,
        .writeFile (pjoin y "package.json") (.json (createManifest y)),
        .stdout ("[ELPHADEAL] Applying template/dependency: " ++ x ++ "..."),
        .exec ("npm install " ++ x) (some y),
        .writeFile (pjoin y "index.js") (.text (templatedIndex x y)),
        .stdout ("\n[ELPHADEAL] Successfully created " ++ y ++ "!"),
        .stdout ("To run your app:\n  cd " ++ y ++ "\n  ../elphadeal.js index.js")],
        .exit0) ∧
    runT h ["create", x, ""] =
      ([.stdout ("[ELPHADEAL] Creating new project \"" ++ x ++ "\"..."),
        .mkdir x,
        .writeFile (pjoin x "package.json") (.json (createManifest x)),
        .stdout ("[ELPHADEAL] Applying template/dependency: " ++ x ++ "..."),
        .exec ("npm install " ++ x) (some x),
        .writeFile (pjoin x "index.js") (.text (templatedIndex x x)),
        .stdout ("\n[ELPHADEAL] Successfully created " ++ x ++ "!"),
        .stdout ("To run your app:\n  cd " ++ x ++ "\n  ../elphadeal.js index.js")],
        .exit0) := by
  refine ⟨?_, ?_, ?_⟩
  · simp [runT, createCmdT, jsOr, hx, hexx]
  · simp [runT, createCmdT, jsOr, hx, hy, hexy, hok]
  · simp [runT, createCmdT, jsOr, hx, hexx, hok]

theorem C10_create_arity_witness :
    runT sampleHost ["create", "app2"] =
      ([.stdout ("[ELPHADEAL] Creating new project \"" ++ "app2" ++ "\"..."),
        .mkdir "app2",
        .writeFile (pjoin "app2" "package.json") (.json (createManifest "app2")),
        .writeFile (pjoin "app2" "App.js") (.text appJsT),
        .writeFile (pjoin "app2" "index.js") (.text plainIndexT),
        .stdout ("\n[ELPHADEAL] Successfully created " ++ "app2" ++ "!"),
        .stdout ("To run your app:\n  cd " ++ "app2" ++ "\n  ../elphadeal.js index.js")],
        .exit0) ∧
    runT sampleHost ["create", "app2", "web"] =
      ([.stdout ("[ELPHADEAL] Creating new project \"" ++ "web" ++ "\"..."),
        .mkdir "web",
        .writeFile (pjoin "web" "package.json") (.json (createManifest "web")),
        .stdout ("[ELPHADEAL] Applying template/dependency: " ++ "app2" ++ "..."),
        .exec ("npm install " ++ "app2") (some "web"),
        .writeFile (pjoin "web" "index.js") (.text (templatedIndex "app2" "web")),
        .stdout ("\n[ELPHADEAL] Successfully created " ++ "web" ++ "!"),
        .stdout ("To run your app:\n  cd " ++ "web" ++ "\n  ../elphadeal.js index.js")],
        .exit0) ∧
    runT sampleHost ["create", "app2", ""] =
      ([.stdout ("[ELPHADEAL] Creating new project \"" ++ "app2" ++ "\"..."),
        .mkdir "app2",
        .writeFile (pjoin "app2" "package.json") (.json (createManifest "app2")),
        .stdout ("[ELPHADEAL] Applying template/dependency: " ++ "app2" ++ "..."),
        .exec ("npm install " ++ "app2") (some "app2"),
        .writeFile (pjoin "app2" "index.js") (.text (templatedIndex "app2" "app2")),
        .stdout ("\n[ELPHADEAL] Successfully created " ++ "app2" ++ "!"),
        .stdout ("To run your app:\n  cd " ++ "app2" ++ "\n  ../elphadeal.js index.js")],
        .exit0) :=
  C10_create_arity sampleHost "app2" "web" (by decide) (by decide) rfl rfl rfl
